import Mathlib

/-
Verification of the player-control core of move_2d_player (src/player.rs).

The embedding models, over exact rational time (ℚ in place of f32):
  - the locomotion state machine `update_player_state` (player.rs:167-214),
    including the Bevy `State` / `NextState` resource split: the system
    writes `NextState`, and Bevy applies it to `State` in the
    `StateTransition` schedule, which runs before `Update` each frame;
  - the animation driver `animate_player` (player.rs:60-77) with a model of
    Bevy's repeating `Timer` (tick / just_finished / set_duration);
  - the `OnEnter` hooks `set_idle` / `set_run` (player.rs:125-153);
  - the movement integrator `move_player` (player.rs:216-234);
  - the per-frame pipeline registered in `PlayerPlugin::build`
    (player.rs:44-47): `(update_player_state, (animate_player, move_player)).chain()`
    inside `Update`, preceded each frame by the `StateTransition` apply.
-/

namespace Player

/-- PlayerDirection enum (player.rs:20-24); `Right` is the default. -/
inductive PlayerDirection where
  | Right
  | Left
deriving DecidableEq, Repr, Fintype

/-- PlayerState enum (player.rs:27-31); `Idle` is the default. -/
inductive PlayerState where
  | Idle
  | Run
deriving DecidableEq, Repr, Fintype

/-- PLAYER_SPEED constant (player.rs:16). -/
def PLAYER_SPEED : ℚ := 500

/-- GRAVITY constant (player.rs:17). -/
def GRAVITY : ℚ := -250

/-- IDLE_SPRITE_INDICES constant (player.rs:10). -/
def IDLE_SPRITE_INDICES : ℕ × ℕ := (0, 9)

/-- IDLE_SPRITE_TIMER constant, 0.1 s (player.rs:11). -/
def IDLE_SPRITE_TIMER : ℚ := 1 / 10

/-- RUN_SPRITE_INDICES constant (player.rs:13). -/
def RUN_SPRITE_INDICES : ℕ × ℕ := (10, 19)

/-- RUN_SPRITE_TIMER constant, 0.05 s (player.rs:14). -/
def RUN_SPRITE_TIMER : ℚ := 1 / 20

/-- Model of Bevy's repeating `Timer` as used by `AnimationTimer`
(player.rs:57-58, 118): a duration, the accumulated elapsed time, and the
just-finished flag produced by the most recent tick. -/
structure Timer where
  duration : ℚ
  elapsed : ℚ
  justFinished : Bool
deriving DecidableEq, Repr

/-- Bevy `Timer::tick` for a repeating timer: add the frame delta to the
elapsed time; if it reaches the duration the timer finishes this tick and
the elapsed time wraps to its remainder modulo the duration. -/
def Timer.tick (t : Timer) (delta : ℚ) : Timer :=
  let e := t.elapsed + delta
  if t.duration ≤ e then
    { duration := t.duration
      elapsed := if 0 < t.duration then e - t.duration * ((⌊e / t.duration⌋ : ℤ) : ℚ) else e
      justFinished := true }
  else
    { duration := t.duration, elapsed := e, justFinished := false }

/-- Bevy `Timer::set_duration`: replaces the duration only; the elapsed
time and finished flag are untouched (used at player.rs:132 and 147). -/
def Timer.setDuration (t : Timer) (d : ℚ) : Timer :=
  { t with duration := d }

/-- The animation-facing component state of the single player entity:
`AnimationIndices` (player.rs:52-55), the `AnimationTimer`, and the sprite's
texture-atlas index. -/
structure AnimState where
  first : ℕ
  last : ℕ
  timer : Timer
  atlasIndex : ℕ
deriving DecidableEq, Repr

/-- The animation components as `spawn_player` creates them
(player.rs:96-118): idle indices, idle-duration repeating timer, and the
atlas index at `first`. -/
def spawnAnim : AnimState :=
  { first := IDLE_SPRITE_INDICES.1
    last := IDLE_SPRITE_INDICES.2
    timer := { duration := IDLE_SPRITE_TIMER, elapsed := 0, justFinished := false }
    atlasIndex := IDLE_SPRITE_INDICES.1 }

/-- The `animate_player` system (player.rs:60-77): tick the timer by this
frame's delta; if it just finished, advance the atlas index by one, wrapping
from `last` back to `first`. -/
def animate_player (dt : ℚ) (a : AnimState) : AnimState :=
  let t := a.timer.tick dt
  if t.justFinished then
    { a with
        timer := t
        atlasIndex := if a.atlasIndex = a.last then a.first else a.atlasIndex + 1 }
  else
    { a with timer := t }

/-- The `set_idle` hook, registered `OnEnter(PlayerState::Idle)`
(player.rs:125-138): set the idle index range, set the timer duration to the
idle frame duration, and reset the atlas index to the new `first`. -/
def set_idle (a : AnimState) : AnimState :=
  { first := IDLE_SPRITE_INDICES.1
    last := IDLE_SPRITE_INDICES.2
    timer := a.timer.setDuration IDLE_SPRITE_TIMER
    atlasIndex := IDLE_SPRITE_INDICES.1 }

/-- The `set_run` hook, registered `OnEnter(PlayerState::Run)`
(player.rs:140-153): set the run index range, set the timer duration to the
run frame duration, and reset the atlas index to the new `first`. -/
def set_run (a : AnimState) : AnimState :=
  { first := RUN_SPRITE_INDICES.1
    last := RUN_SPRITE_INDICES.2
    timer := a.timer.setDuration RUN_SPRITE_TIMER
    atlasIndex := RUN_SPRITE_INDICES.1 }

/-- The Bevy state resources the locomotion systems touch: the applied
`State<PlayerState>` / `State<PlayerDirection>` values and the pending
`NextState` values (`none` when no transition is queued). -/
structure LocomotionRes where
  state : PlayerState
  direction : PlayerDirection
  nextState : Option PlayerState
  nextDirection : Option PlayerDirection
deriving DecidableEq, Repr, Fintype

/-- The `update_player_state` system (player.rs:167-214) acting on the state
resources: it reads `State` and writes `NextState` via `.set`, never `State`
itself. Edge argument order follows the code's locals: pressed_right,
released_right, pressed_left, released_left. -/
def update_player_state_system (pr rr pl rl : Bool) (r : LocomotionRes) : LocomotionRes :=
  match r.state with
  | .Idle =>
    if (pr && pl) || (rr && rl) then
      r
    else if pr || rl then
      { r with
          nextState := some .Run
          nextDirection :=
            match r.direction with
            | .Left => some .Right
            | .Right => r.nextDirection }
    else if pl || rr then
      { r with
          nextState := some .Run
          nextDirection :=
            match r.direction with
            | .Right => some .Left
            | .Left => r.nextDirection }
    else
      r
  | .Run =>
    if rr && pl then
      { r with nextDirection := some .Left }
    else if rr || pl then
      { r with nextState := some .Idle }
    else if rl && pr then
      { r with nextDirection := some .Right }
    else if rl || pr then
      { r with nextState := some .Idle }
    else
      r

/-- The value-level locomotion transition: the state and direction that will
be applied given the current pair and this frame's four edge booleans,
obtained by running the system on clean resources and applying the queued
`NextState` values. -/
def update_player_state (s : PlayerState) (d : PlayerDirection)
    (pr rr pl rl : Bool) : PlayerState × PlayerDirection :=
  let r := update_player_state_system pr rr pl rl
    { state := s, direction := d, nextState := none, nextDirection := none }
  (r.nextState.getD s, r.nextDirection.getD d)

/-- Bevy's `StateTransition` schedule step for the two state resources:
each pending `NextState` is taken and applied to `State`. In Bevy's `Main`
schedule this runs once per frame, before `Update`. -/
def applyStateTransition (r : LocomotionRes) : LocomotionRes :=
  { state := r.nextState.getD r.state
    direction := r.nextDirection.getD r.direction
    nextState := none
    nextDirection := none }

/-- The `move_player` system (player.rs:216-234): start from
`(0, GRAVITY * gravity_scale)`, add the signed `PLAYER_SPEED` to x when in
`Run`, and scale the whole vector by this frame's delta seconds. -/
def move_player (s : PlayerState) (d : PlayerDirection)
    (gravityScale dt : ℚ) : ℚ × ℚ :=
  let m : ℚ × ℚ := (0, GRAVITY * gravityScale)
  let m : ℚ × ℚ :=
    match s with
    | .Run =>
      match d with
      | .Right => (m.1 + PLAYER_SPEED, m.2)
      | .Left => (m.1 - PLAYER_SPEED, m.2)
    | _ => m
  (m.1 * dt, m.2 * dt)

/-- One frame of the locomotion pipeline, following Bevy's `Main` schedule
order and `PlayerPlugin::build` (player.rs:44-47): the `StateTransition`
schedule applies pending `NextState` values, then in `Update` the chained
systems run — `update_player_state` first, then `move_player`, which reads
the `State` resources. Returns the resources after the frame and the
translation submitted to the kinematic character controller. -/
def runFrame (pr rr pl rl : Bool) (gravityScale dt : ℚ)
    (r : LocomotionRes) : LocomotionRes × (ℚ × ℚ) :=
  let r := applyStateTransition r
  let r := update_player_state_system pr rr pl rl r
  (r, move_player r.state r.direction gravityScale dt)

/-- An operation that touches the animation components during the process
lifetime: a frame tick of `animate_player`, or one of the `OnEnter` hooks
fired by a committed `MotionState` transition. -/
inductive AnimOp where
  | tick (dt : ℚ)
  | enterIdle
  | enterRun

/-- Effect of one animation-touching operation on the animation state. -/
def AnimOp.apply (op : AnimOp) (a : AnimState) : AnimState :=
  match op with
  | .tick dt => animate_player dt a
  | .enterIdle => set_idle a
  | .enterRun => set_run a

/-- A whole history of animation-touching operations, oldest first. -/
def runOps (ops : List AnimOp) (a : AnimState) : AnimState :=
  ops.foldl (fun s op => AnimOp.apply op s) a

/-- The cursor invariant from the spec: the displayed atlas index lies
within the active cycle's index range (and the range is nonempty). -/
def AnimInv (a : AnimState) : Prop :=
  a.first ≤ a.last ∧ a.first ≤ a.atlasIndex ∧ a.atlasIndex ≤ a.last

/-- A concrete animation state on the idle cycle with 1/10 s already
accrued on its timer, used to exercise the accrual-carries-over behaviour. -/
def accruedAnim : AnimState :=
  { first := 0
    last := 9
    timer := { duration := IDLE_SPRITE_TIMER, elapsed := 1 / 10, justFinished := false }
    atlasIndex := 0 }

theorem animInv_animate_player (dt : ℚ) (a : AnimState) (h : AnimInv a) :
    AnimInv (animate_player dt a) := by
  obtain ⟨h1, h2, h3⟩ := h
  unfold AnimInv animate_player
  dsimp only
  split
  · refine ⟨h1, ?_, ?_⟩ <;> dsimp only <;> split <;> omega
  · exact ⟨h1, h2, h3⟩

theorem animInv_set_idle (a : AnimState) : AnimInv (set_idle a) := by
  norm_num [AnimInv, set_idle, IDLE_SPRITE_INDICES]

theorem animInv_set_run (a : AnimState) : AnimInv (set_run a) := by
  norm_num [AnimInv, set_run, RUN_SPRITE_INDICES]

theorem animInv_spawnAnim : AnimInv spawnAnim := by
  norm_num [AnimInv, spawnAnim, IDLE_SPRITE_INDICES]

theorem animInv_runOps (ops : List AnimOp) (a : AnimState) (h : AnimInv a) :
    AnimInv (runOps ops a) := by
  induction ops generalizing a with
  | nil => exact h
  | cons op ops ih =>
    cases op with
    | tick dt => exact ih _ (animInv_animate_player dt a h)
    | enterIdle => exact ih _ (animInv_set_idle a)
    | enterRun => exact ih _ (animInv_set_run a)

theorem update_system_state_eq : ∀ (pr rr pl rl : Bool) (r : LocomotionRes),
    (update_player_state_system pr rr pl rl r).state = r.state := by decide

theorem update_system_direction_eq : ∀ (pr rr pl rl : Bool) (r : LocomotionRes),
    (update_player_state_system pr rr pl rl r).direction = r.direction := by decide

/-- Claim C1, counterexample: in state Run with direction Left and the single
edge released-right, the code's transition goes to Idle (the `released_right
|| pressed_left` arm fires regardless of the current direction), whereas the
claim's direction-guarded table says nothing changes. -/
theorem C1_counterexample :
    update_player_state .Run .Left false true false false = (.Idle, .Left) ∧
    update_player_state .Run .Left false true false false ≠ (.Run, .Left) := by
  decide

/-- Claim C1, amended: the Run-state transition does not consult the current
direction. For every current direction: RR and PL together set direction
Left and stay Run; else RR or PL goes to Idle with direction unchanged; else
RL and PR together set direction Right and stay Run; else RL or PR goes to
Idle with direction unchanged; any other combination changes nothing. -/
theorem C1_run_transition_table :
    ∀ (d : PlayerDirection) (pr rr pl rl : Bool),
      update_player_state .Run d pr rr pl rl =
        (if rr && pl then (.Run, .Left)
         else if rr || pl then (.Idle, d)
         else if rl && pr then (.Run, .Right)
         else if rl || pr then (.Idle, d)
         else (.Run, d)) := by
  decide

/-- Claim C2, counterexample: starting from applied state Idle facing Right
with no pending transition, a frame with the pressed-right edge commits the
Idle-to-Run transition (the pending next state is Run after the frame), yet
that same frame's movement request is (0, -5) at dt = 1/50 — the Idle
horizontal component, not the Run-speed component 500 * (1/50) = 10. The
`NextState` written during `Update` is only applied by the `StateTransition`
schedule of the following frame. -/
theorem C2_counterexample :
    (runFrame true false false false 1 (1 / 50)
        { state := .Idle, direction := .Right, nextState := none,
          nextDirection := none }).1.nextState = some .Run ∧
    (runFrame true false false false 1 (1 / 50)
        { state := .Idle, direction := .Right, nextState := none,
          nextDirection := none }).2 = (0, -5) ∧
    (0 : ℚ) ≠ PLAYER_SPEED * (1 / 50) := by
  refine ⟨by decide, ?_, by norm_num [PLAYER_SPEED]⟩
  norm_num [runFrame, applyStateTransition, update_player_state_system, move_player,
    GRAVITY, PLAYER_SPEED]

/-- Claim C2, amended: within a frame the Movement Integrator reads the
MotionState and FacingDirection applied by that frame's `StateTransition`
step — i.e. the values committed by the previous frame's transition pass —
independently of the edges processed this frame; an Idle-to-Run commit in
frame N first yields a Run-speed movement request in frame N+1 (concrete
two-frame scenario with dt = 1/50 included). -/
theorem C2_state_read_is_previous_commit :
    (∀ (r : LocomotionRes) (pr rr pl rl : Bool) (gs dt : ℚ),
        (runFrame pr rr pl rl gs dt r).2 =
          move_player (applyStateTransition r).state
            (applyStateTransition r).direction gs dt) ∧
    (runFrame false false false false 1 (1 / 50)
        (runFrame true false false false 1 (1 / 50)
          { state := .Idle, direction := .Right, nextState := none,
            nextDirection := none }).1).2 = (10, -5) := by
  constructor
  · intro r pr rr pl rl gs dt
    unfold runFrame
    dsimp only
    rw [update_system_state_eq, update_system_direction_eq]
  · norm_num [runFrame, applyStateTransition, update_player_state_system, move_player,
      GRAVITY, PLAYER_SPEED]

/-- Claim C3: the movement request is (0, GRAVITY * gs * dt) in Idle,
(PLAYER_SPEED * dt, GRAVITY * gs * dt) in Run facing Right, and
(-(PLAYER_SPEED * dt), GRAVITY * gs * dt) in Run facing Left; with the
configured constants, gravity scale 1 and dt = 1/50 (0.02 s) in Run facing
Right it is exactly (10, -5). -/
theorem C3_move_player_displacement :
    (∀ (d : PlayerDirection) (gs dt : ℚ),
        move_player .Idle d gs dt = (0, GRAVITY * gs * dt)) ∧
    (∀ gs dt : ℚ, move_player .Run .Right gs dt = (PLAYER_SPEED * dt, GRAVITY * gs * dt)) ∧
    (∀ gs dt : ℚ, move_player .Run .Left gs dt = (-(PLAYER_SPEED * dt), GRAVITY * gs * dt)) ∧
    move_player .Run .Right 1 (1 / 50) = (10, -5) := by
  refine ⟨?_, ?_, ?_, ?_⟩
  · intro d gs dt
    cases d <;> simp [move_player, mul_assoc]
  · intro gs dt
    simp [move_player, mul_assoc]
  · intro gs dt
    simp [move_player, mul_assoc, zero_sub, neg_mul]
  · norm_num [move_player, GRAVITY, PLAYER_SPEED]

/-- Claim C4: the animation cursor stays within [first, last] of the active
cycle — the invariant holds along every history of ticks and enter-hooks
from the spawn state, and is preserved by `animate_player` from any state
satisfying it — and on a tick whose timer just finished the index moves by
exactly one position: to `first` when it was at `last`, to index + 1
otherwise. -/
theorem C4_cursor_invariant_and_exact_wrap :
    (∀ ops : List AnimOp, AnimInv (runOps ops spawnAnim)) ∧
    (∀ (dt : ℚ) (a : AnimState), AnimInv a → AnimInv (animate_player dt a)) ∧
    (∀ (dt : ℚ) (a : AnimState), (a.timer.tick dt).justFinished = true →
      (a.atlasIndex = a.last → (animate_player dt a).atlasIndex = a.first) ∧
      (a.atlasIndex ≠ a.last → (animate_player dt a).atlasIndex = a.atlasIndex + 1)) := by
  refine ⟨fun ops => animInv_runOps ops spawnAnim animInv_spawnAnim,
    fun dt a h => animInv_animate_player dt a h, ?_⟩
  intro dt a hf
  constructor
  · intro hl
    simp [animate_player, hf, hl]
  · intro hl
    simp [animate_player, hf, hl]

/-- Claim C4, witness: the invariant holds at spawn; ticking the spawn state
by a full second finishes the timer, keeps the invariant, and advances the
index from 0 to 1. -/
theorem C4_witness :
    AnimInv spawnAnim ∧
    (spawnAnim.timer.tick 1).justFinished = true ∧
    AnimInv (animate_player 1 spawnAnim) ∧
    (animate_player 1 spawnAnim).atlasIndex = spawnAnim.atlasIndex + 1 := by
  have h1 : AnimInv spawnAnim := by norm_num [AnimInv, spawnAnim, IDLE_SPRITE_INDICES]
  have h2 : (spawnAnim.timer.tick 1).justFinished = true := by
    norm_num [spawnAnim, Timer.tick, IDLE_SPRITE_TIMER]
  have h3 : spawnAnim.atlasIndex ≠ spawnAnim.last := by decide
  exact ⟨h1, h2, C4_cursor_invariant_and_exact_wrap.2.1 1 spawnAnim h1,
    (C4_cursor_invariant_and_exact_wrap.2.2 1 spawnAnim h2).2 h3⟩

/-- Claim C5: from Idle, simultaneous press-right with press-left, or
simultaneous release-right with release-left, is a no-op — neither state nor
direction changes — for every current direction and every value of the
remaining edges. -/
theorem C5_idle_ambiguous_edges_noop :
    ∀ (d : PlayerDirection) (pr rr pl rl : Bool),
      ((pr && pl) || (rr && rl)) = true →
      update_player_state .Idle d pr rr pl rl = (.Idle, d) := by
  decide

/-- Claim C5, witness: the press-press tie at direction Right. -/
theorem C5_witness :
    ((true && true) || (false && false)) = true ∧
    update_player_state .Idle .Right true false true false = (.Idle, .Right) :=
  ⟨by decide, C5_idle_ambiguous_edges_noop .Right true false true false (by decide)⟩

/-- Claim C6: from Idle, outside the ambiguous simultaneous-edge cases, the
transition follows the table — pressed-right or released-left gives Run
facing Right; else pressed-left or released-right gives Run facing Left;
else nothing changes. -/
theorem C6_idle_transition_table :
    ∀ (d : PlayerDirection) (pr rr pl rl : Bool),
      ((pr && pl) || (rr && rl)) = false →
      update_player_state .Idle d pr rr pl rl =
        (if pr || rl then (.Run, .Right)
         else if pl || rr then (.Run, .Left)
         else (.Idle, d)) := by
  decide

/-- Claim C6, witness: pressed-right alone from Idle facing Left flips the
direction to Right and enters Run. -/
theorem C6_witness :
    ((true && false) || (false && false)) = false ∧
    update_player_state .Idle .Left true false false false = (.Run, .Right) :=
  ⟨by decide, by
    have h := C6_idle_transition_table .Left true false false false (by decide)
    simpa using h⟩

/-- Claim C7: with all four edge booleans false the transition changes
neither MotionState nor FacingDirection, for every current pair; hence
applying it twice with no edges equals applying it once. -/
theorem C7_no_edge_noop_idempotent :
    ∀ (s : PlayerState) (d : PlayerDirection),
      update_player_state s d false false false false = (s, d) ∧
      update_player_state (update_player_state s d false false false false).1
          (update_player_state s d false false false false).2 false false false false =
        update_player_state s d false false false false := by
  decide

/-- Claim C8: the enter-Run hook sets the Run cycle configuration — indices
[10, 19] and 1/20 s (0.05 s) per frame — and resets the cursor to the new
first index; the enter-Idle hook likewise sets indices [0, 9] and 1/10 s
(0.1 s) per frame and resets the cursor to first. -/
theorem C8_enter_hooks_set_cycle_config :
    RUN_SPRITE_INDICES = (10, 19) ∧ RUN_SPRITE_TIMER = 1 / 20 ∧
    IDLE_SPRITE_INDICES = (0, 9) ∧ IDLE_SPRITE_TIMER = 1 / 10 ∧
    (∀ a : AnimState,
      (set_run a).first = RUN_SPRITE_INDICES.1 ∧ (set_run a).last = RUN_SPRITE_INDICES.2 ∧
      (set_run a).timer.duration = RUN_SPRITE_TIMER ∧
      (set_run a).atlasIndex = (set_run a).first) ∧
    (∀ a : AnimState,
      (set_idle a).first = IDLE_SPRITE_INDICES.1 ∧ (set_idle a).last = IDLE_SPRITE_INDICES.2 ∧
      (set_idle a).timer.duration = IDLE_SPRITE_TIMER ∧
      (set_idle a).atlasIndex = (set_idle a).first) :=
  ⟨rfl, rfl, rfl, rfl, fun _ => ⟨rfl, rfl, rfl, rfl⟩, fun _ => ⟨rfl, rfl, rfl, rfl⟩⟩

/-- Claim C9: the enter hooks leave the timer's accumulated elapsed time
unchanged (they only replace the duration, index range and displayed index),
so time accrued under the previous cycle counts toward the first advance of
the new one: entering Run with more than 1/20 s (0.05 s) accrued makes the
very next tick — of any nonnegative delta — finish the timer. -/
theorem C9_hooks_preserve_elapsed :
    (∀ a : AnimState,
      (set_run a).timer.elapsed = a.timer.elapsed ∧
      (set_idle a).timer.elapsed = a.timer.elapsed) ∧
    (∀ (a : AnimState) (dt : ℚ), 0 ≤ dt → RUN_SPRITE_TIMER < a.timer.elapsed →
      ((set_run a).timer.tick dt).justFinished = true) := by
  constructor
  · intro a
    exact ⟨rfl, rfl⟩
  · intro a dt hdt hlt
    have h : RUN_SPRITE_TIMER ≤ a.timer.elapsed + dt :=
      le_of_lt (lt_of_lt_of_le hlt (le_add_of_nonneg_right hdt))
    simp [set_run, Timer.setDuration, Timer.tick, h]

/-- Claim C9, witness: an idle-cycle timer with 1/10 s accrued, switched to
the Run cycle, fires on the next tick even with zero delta. -/
theorem C9_witness :
    (0 : ℚ) ≤ 0 ∧
    RUN_SPRITE_TIMER < accruedAnim.timer.elapsed ∧
    ((set_run accruedAnim).timer.tick 0).justFinished = true := by
  refine ⟨le_refl 0, by norm_num [RUN_SPRITE_TIMER, accruedAnim], ?_⟩
  exact C9_hooks_preserve_elapsed.2 accruedAnim 0 (le_refl 0)
    (by norm_num [RUN_SPRITE_TIMER, accruedAnim])

/-- Claim C10: one frame of `animate_player` moves the atlas index by at
most one position along the cycle — it either stays put or takes the single
step (to first from last, to index + 1 otherwise) — for every delta, however
large; concretely, a delta of three Run frame-durations on a fresh Run cycle
still advances the index by exactly one, from 10 to 11. -/
theorem C10_at_most_one_advance_per_frame :
    (∀ (dt : ℚ) (a : AnimState),
        (animate_player dt a).atlasIndex = a.atlasIndex ∨
        (animate_player dt a).atlasIndex =
          (if a.atlasIndex = a.last then a.first else a.atlasIndex + 1)) ∧
    (animate_player (3 * RUN_SPRITE_TIMER) (set_run spawnAnim)).atlasIndex
      = RUN_SPRITE_INDICES.1 + 1 := by
  constructor
  · intro dt a
    unfold animate_player
    dsimp only
    split
    · right
      rfl
    · left
      rfl
  · norm_num [animate_player, set_run, spawnAnim, Timer.tick, Timer.setDuration,
      RUN_SPRITE_TIMER, RUN_SPRITE_INDICES, IDLE_SPRITE_TIMER, IDLE_SPRITE_INDICES]

end Player
